import Mathlib

/-!
Verification of the cost-optimizer operator core (Metrics Collector,
Recommendation Analyzer, Reconciliation Controller) against its design
specification.

Modelling conventions:
* Go `int64` values (milli-cores, bytes, percentages) are modelled as `ℤ`.
* Go `float64` arithmetic is modelled as exact arithmetic over `ℚ`; the
  multipliers `1.5`, `1.1`, `1.2` become `3/2`, `11/10`, `6/5`.  Go's
  `int64(f)` / `int32(f)` conversions truncate toward zero, modelled by
  `ratTrunc` below.  For the quantity ranges the operator works with
  (well below 2^50) the exact-rational model agrees with IEEE-754 double
  evaluation.
* Go integer division (`total / int64(len(...))`) truncates toward zero,
  modelled by `Int.tdiv`.
* `resource.Quantity` values are represented by their extracted integer
  magnitude (`MilliValue()` for CPU, `Value()` for memory); the policy's
  quantity strings are represented post-parse, as §7 of the design
  states that the core's algorithms assume post-parse numeric policy
  values.
* Timestamps are opaque numbers; `metav1.Now()` becomes an explicit
  `now` parameter threaded through the controller functions.  The reason
  strings assembled with `fmt.Sprintf` are irrelevant to every claim and
  are elided (condition `reason`/`message` fields are kept).
* Fallible Go functions returning `(T, error)` become `Except String T`
  or a product with `Option String`.
-/

namespace CostOptimizer

/-- Truncation toward zero of a rational: the semantics of Go's
`int64(f)`/`int32(f)` conversion applied to a non-NaN finite float. -/
def ratTrunc (q : ℚ) : ℤ := if 0 ≤ q then ⌊q⌋ else ⌈q⌉

/-! ### Metrics Collector (src/internal/metrics/collector.go) -/

/-- One container's usage inside a pod-metric snapshot: the quantities of the
`containerUsageMap` for the keys "cpu" (milli-cores) and "memory" (bytes). -/
structure ContainerUsage where
  cpu : ℤ
  memory : ℤ
deriving DecidableEq

/-- One element of the pod-metrics list returned by the usage query. -/
structure PodMetric where
  containers : List ContainerUsage
  timestamp : ℤ
deriving DecidableEq

/-- `UsageData` from collector.go: one aggregate sample, with
`CPUUsage.MilliValue()` and `MemoryUsage.Value()` extracted. -/
structure UsageData where
  CPUUsage : ℤ
  MemoryUsage : ℤ
  Timestamp : ℤ
deriving DecidableEq

/-- The pod loop of `CollectWorkloadMetrics`.  In the source, `totalCPU` and
`totalMemory` are declared once, outside the loop over `podMetrics.Items`, and
each appended `UsageData` copies their current value; the accumulators are the
extra `ℤ` arguments here. -/
def collectLoop : List PodMetric → ℤ → ℤ → List UsageData
  | [], _, _ => []
  | p :: ps, totalCPU, totalMemory =>
    let tc := totalCPU + (p.containers.map ContainerUsage.cpu).sum
    let tm := totalMemory + (p.containers.map ContainerUsage.memory).sum
    ⟨tc, tm, p.timestamp⟩ :: collectLoop ps tc tm

/-- `CollectWorkloadMetrics`: the usage-store query result is passed in as an
`Except`; on query failure the collector returns
`fmt.Errorf("failed to get pod metrics: %w", err)` and no metrics value. -/
def CollectWorkloadMetrics (query : Except String (List PodMetric)) :
    Except String (List UsageData) :=
  match query with
  | .error err => .error ("failed to get pod metrics: " ++ err)
  | .ok pods => .ok (collectLoop pods 0 0)

/-! ### Policy (src/api/v1/resourceoptimizer_types.go) -/

/-- `CPUPolicy`, post-parse: `Min`/`Max` hold `MustParse(...).MilliValue()` of
the quantity strings (the CRD pattern restricts them to non-negative values);
`TargetUtilization` is CRD-validated into 1..100. -/
structure CPUPolicy where
  Min : ℤ
  Max : ℤ
  TargetUtilization : ℤ
deriving DecidableEq

/-- `MemoryPolicy`: `BufferPercent` is CRD-validated into 0..100. -/
structure MemoryPolicy where
  BufferPercent : ℤ
deriving DecidableEq

structure Policy where
  Cpu : CPUPolicy
  Memory : MemoryPolicy
deriving DecidableEq

/-! ### Recommendation Analyzer (analyzer source file, `package metrics`) -/

/-- The `peak` accumulator of `calculateCPURecommendation`'s loop:
starts at 0, replaced whenever a sample's CPU milli-value exceeds it. -/
def cpuPeak (usage : List UsageData) : ℤ :=
  usage.foldl (fun peak u => if u.CPUUsage > peak then u.CPUUsage else peak) 0

/-- The `total` accumulator of the same loop. -/
def cpuTotal (usage : List UsageData) : ℤ := (usage.map UsageData.CPUUsage).sum

/-- `avg := total / int64(len(metrics.Usage))` — Go division truncates
toward zero. -/
def cpuAvg (usage : List UsageData) : ℤ := (cpuTotal usage).tdiv usage.length

/-- `targetCPU := int64(float64(avg) / (float64(policy.TargetUtilization) / 100.0))`. -/
def cpuTargetRaw (usage : List UsageData) (policy : CPUPolicy) : ℤ :=
  ratTrunc ((cpuAvg usage : ℚ) / ((policy.TargetUtilization : ℚ) / 100))

/-- The two sequential min/max clamps applied to `targetCPU`. -/
def cpuTargetClamped (usage : List UsageData) (policy : CPUPolicy) : ℤ :=
  let t0 := cpuTargetRaw usage policy
  let t1 := if t0 < policy.Min then policy.Min else t0
  if t1 > policy.Max then policy.Max else t1

structure cpuRecommendation where
  Request : ℤ
  Limit : ℤ
deriving DecidableEq

/-- `calculateCPURecommendation`: request is the clamped target; the limit is
`int64(math.Max(float64(targetCPU)*1.5, float64(peak)*1.1))`. -/
def calculateCPURecommendation (usage : List UsageData) (policy : CPUPolicy) :
    cpuRecommendation :=
  ⟨cpuTargetClamped usage policy,
   ratTrunc (max ((cpuTargetClamped usage policy : ℚ) * (3 / 2))
     ((cpuPeak usage : ℚ) * (11 / 10)))⟩

/-- The `peak` accumulator of `calculateMemoryRecommendation`'s loop. -/
def memPeak (usage : List UsageData) : ℤ :=
  usage.foldl (fun peak u => if u.MemoryUsage > peak then u.MemoryUsage else peak) 0

/-- `targetMemory := int64(float64(peak) * (1.0 + float64(policy.BufferPercent)/100.0))`. -/
def memTarget (usage : List UsageData) (policy : MemoryPolicy) : ℤ :=
  ratTrunc ((memPeak usage : ℚ) * (1 + (policy.BufferPercent : ℚ) / 100))

structure memoryRecommendation where
  Request : ℤ
  Limit : ℤ
deriving DecidableEq

/-- `calculateMemoryRecommendation`: request is the buffered peak, the limit is
`int64(float64(targetMemory)*1.2)`; no min/max clamping exists for memory. -/
def calculateMemoryRecommendation (usage : List UsageData) (policy : MemoryPolicy) :
    memoryRecommendation :=
  ⟨memTarget usage policy, ratTrunc ((memTarget usage policy : ℚ) * (6 / 5))⟩

/-- `calculateVariance`: population variance, 0 for an empty value list. -/
def calculateVariance (values : List ℚ) : ℚ :=
  if values.length = 0 then 0
  else
    (values.map (fun v => (v - values.sum / values.length) ^ 2)).sum / values.length

/-- The `cpuValues` slice assembled inside `calculateConfidence`. -/
def cpuValues (usage : List UsageData) : List ℚ :=
  usage.map (fun u => (u.CPUUsage : ℚ))

/-- `calculateConfidence`: tiered by sample count, then refined by the
population variance of the CPU milli-values. -/
def calculateConfidence (usage : List UsageData) : ℚ :=
  if usage.length < 5 then 3 / 10
  else if usage.length < 20 then 6 / 10
  else if calculateVariance (cpuValues usage) < 100 then 9 / 10
  else if calculateVariance (cpuValues usage) < 500 then 7 / 10
  else 1 / 2

/-- Analyzer output (`Recommendation` in the source); the `Reason` string is
elided. -/
structure Recommendation where
  CPURequest : ℤ
  CPULimit : ℤ
  MemoryRequest : ℤ
  MemoryLimit : ℤ
  Confidence : ℚ
deriving DecidableEq

/-- `GenerateRecommendation`: fails with "no usage data available" on an empty
series, otherwise assembles the CPU/memory recommendations and confidence. -/
def GenerateRecommendation (usage : List UsageData) (policy : Policy) :
    Except String Recommendation :=
  if usage.length = 0 then .error "no usage data available"
  else
    .ok ⟨(calculateCPURecommendation usage policy.Cpu).Request,
         (calculateCPURecommendation usage policy.Cpu).Limit,
         (calculateMemoryRecommendation usage policy.Memory).Request,
         (calculateMemoryRecommendation usage policy.Memory).Limit,
         calculateConfidence usage⟩

/-! ### Reconciliation Controller (controller source file) -/

/-- `metav1.ConditionStatus`. -/
inductive ConditionStatus where
  | conditionTrue
  | conditionFalse
  | conditionUnknown
deriving DecidableEq

/-- `metav1.Condition`, with the fields the controller manipulates. -/
structure Condition where
  type : String
  status : ConditionStatus
  reason : String
  message : String
  lastTransitionTime : ℕ
deriving DecidableEq

/-- `ResourceRecommendation` as persisted in status; `Confidence` holds
`int32(recommendation.Confidence * 100)`. -/
structure ResourceRecommendation where
  cpuRequest : ℤ
  cpuLimit : ℤ
  memoryRequest : ℤ
  memoryLimit : ℤ
  Confidence : ℤ
deriving DecidableEq

/-- `ResourceOptimizerStatus` (the unused `LastOptimized` field is elided). -/
structure ResourceOptimizerStatus where
  Conditions : List Condition
  CurrentRecommendation : Option ResourceRecommendation
deriving DecidableEq

/-- The linear scan of `addCondition` over `status.Conditions`.  On a type
match the source first writes `lastTransitionTime := now` only when the stored
status differs, but then unconditionally overwrites the field with a fresh
`metav1.Now()` before returning; both timestamps are the same instant `now`
here, so the net effect is the unconditional update modelled in this branch.
If no condition of the type exists, a new one is appended with time `now`. -/
def addConditionList (now : ℕ) (condType : String) (statusType : ConditionStatus)
    (reason message : String) : List Condition → List Condition
  | [] => [⟨condType, statusType, reason, message, now⟩]
  | c :: rest =>
    if c.type = condType then
      ⟨c.type, statusType, reason, message, now⟩ :: rest
    else
      c :: addConditionList now condType statusType reason message rest

/-- `addCondition` on a whole status value. -/
def addCondition (now : ℕ) (status : ResourceOptimizerStatus) (condType : String)
    (statusType : ConditionStatus) (reason message : String) : ResourceOptimizerStatus :=
  { status with
    Conditions := addConditionList now condType statusType reason message status.Conditions }

/-- `analyzeAndOptimize`: takes the collector result, handles the empty-series
case with `OptimizationReady=False/NoMetricsData` (returning no error), and on
success stores the recommendation (confidence scaled by 100 and truncated to an
integer percentage) before setting
`OptimizationReady=True/RecommendationGenerated`.  Returns the updated status
and the error the Go function would return. -/
def analyzeAndOptimize (now : ℕ) (st : ResourceOptimizerStatus) (policy : Policy)
    (collected : Except String (List UsageData)) :
    ResourceOptimizerStatus × Option String :=
  match collected with
  | .error err => (st, some err)
  | .ok usage =>
    if usage.length = 0 then
      (addCondition now st "OptimizationReady" .conditionFalse "NoMetricsData"
        "Waiting for metrics data to be available", none)
    else
      match GenerateRecommendation usage policy with
      | .error err => (st, some err)
      | .ok rec =>
        let persisted : ResourceRecommendation :=
          ⟨rec.CPURequest, rec.CPULimit, rec.MemoryRequest, rec.MemoryLimit,
           ratTrunc (rec.Confidence * 100)⟩
        (addCondition now { st with CurrentRecommendation := some persisted }
          "OptimizationReady" .conditionTrue "RecommendationGenerated" "", none)

/-- Outcome of the target-deployment lookup in `Reconcile`. -/
inductive DeploymentLookup where
  | found
  | notFound
  | lookupError
deriving DecidableEq

/-- The body of `Reconcile` after the optimizer resource has been loaded:
resolves the deployment, runs `analyzeAndOptimize`, and finishes the pass.
Returns the status as persisted by the final `updateStatus` call together with
the requeue delay in minutes (`none` models an errored pass with no requeue). -/
def Reconcile (now : ℕ) (st : ResourceOptimizerStatus) (policy : Policy)
    (deployment : DeploymentLookup) (collected : Except String (List UsageData)) :
    ResourceOptimizerStatus × Option ℕ :=
  match deployment with
  | .lookupError => (st, none)
  | .notFound =>
    (addCondition now st "DeploymentReady" .conditionFalse "TargetNotFound"
      "Target Deployment does not exist yet", some 5)
  | .found =>
    let st1 := addCondition now st "DeploymentReady" .conditionTrue "TargetFound"
      "Target Deployment exists"
    match analyzeAndOptimize now st1 policy collected with
    | (st2, some err) =>
      (addCondition now st2 "OptimizationReady" .conditionFalse "AnalysisFailed" err,
       some 10)
    | (st2, none) =>
      (addCondition now st2 "Ready" .conditionTrue "AllSubresourcesReady"
       "All subresources are ready", some 15)

/-! ### Specification-side definitions -/

/-- Maximum of a list of integers with the collector loops' starting value 0,
used to state the claims' "peak" independently of the loop shape. -/
def listMaxNonneg (l : List ℤ) : ℤ := l.foldl max 0

/-- The confidence tiers exactly as the specification words them, as a pure
function of sample count and variance (for comparison with
`calculateConfidence`). -/
def confidenceSpec (n : ℕ) (variance : ℚ) : ℚ :=
  if n < 5 then 3 / 10
  else if n < 20 then 6 / 10
  else if variance < 100 then 9 / 10
  else if variance < 500 then 7 / 10
  else 1 / 2

/-- A policy with cpu min 100m, max 800m, target utilization 50%, memory
buffer 20%: the policy of the specification's Scenario A. -/
def scenarioPolicy : Policy := ⟨⟨100, 800, 50⟩, ⟨20⟩⟩

/-- Twenty-five CPU samples with mean 100m and population variance
(25² + 25²) / 25 = 50: the second half of the specification's Scenario C. -/
def sample25 : List UsageData :=
  ⟨125, 0, 0⟩ :: ⟨75, 0, 0⟩ :: List.replicate 23 ⟨100, 0, 0⟩

/-! ### Helper lemmas -/

lemma ratTrunc_intCast (n : ℤ) : ratTrunc (n : ℚ) = n := by
  unfold ratTrunc
  rcases le_or_lt 0 (n : ℚ) with h | h
  · rw [if_pos h, Int.floor_intCast]
  · rw [if_neg (not_le.mpr h), Int.ceil_intCast]

lemma le_ratTrunc {n : ℤ} {q : ℚ} (hn : 0 ≤ n) (h : (n : ℚ) ≤ q) : n ≤ ratTrunc q := by
  have hq : (0 : ℚ) ≤ q := le_trans (by exact_mod_cast hn) h
  unfold ratTrunc
  rw [if_pos hq]
  exact Int.le_floor.mpr h

lemma foldl_if_gt_eq_foldl_max (f : UsageData → ℤ) (l : List UsageData) :
    ∀ a : ℤ, l.foldl (fun peak u => if f u > peak then f u else peak) a =
      (l.map f).foldl max a := by
  induction l with
  | nil => intro a; rfl
  | cons x xs ih =>
    intro a
    have hstep : (if f x > a then f x else a) = max a (f x) := by
      rcases lt_trichotomy (f x) a with h | h | h <;> simp [h, max_def] <;> omega
    simp only [List.foldl_cons, List.map_cons, hstep, ih]

lemma le_foldl_max (l : List ℤ) : ∀ a : ℤ, a ≤ l.foldl max a := by
  induction l with
  | nil => intro a; simp
  | cons x xs ih =>
    intro a
    exact le_trans (le_max_left a x) (ih (max a x))

lemma cpuPeak_eq_listMax (usage : List UsageData) :
    cpuPeak usage = listMaxNonneg (usage.map UsageData.CPUUsage) :=
  foldl_if_gt_eq_foldl_max UsageData.CPUUsage usage 0

lemma memPeak_eq_listMax (usage : List UsageData) :
    memPeak usage = listMaxNonneg (usage.map UsageData.MemoryUsage) :=
  foldl_if_gt_eq_foldl_max UsageData.MemoryUsage usage 0

lemma listMaxNonneg_nonneg (l : List ℤ) : 0 ≤ listMaxNonneg l := le_foldl_max l 0

lemma cpuPeak_nonneg (usage : List UsageData) : 0 ≤ cpuPeak usage := by
  rw [cpuPeak_eq_listMax]; exact listMaxNonneg_nonneg _

lemma memPeak_nonneg (usage : List UsageData) : 0 ≤ memPeak usage := by
  rw [memPeak_eq_listMax]; exact listMaxNonneg_nonneg _

lemma length_ne_zero_of_ne_nil {l : List UsageData} (h : l ≠ []) : l.length ≠ 0 :=
  fun hl => h (List.length_eq_zero.mp hl)

lemma cpuTargetClamped_eq (usage : List UsageData) (policy : CPUPolicy) :
    cpuTargetClamped usage policy =
      if (if cpuTargetRaw usage policy < policy.Min then policy.Min
          else cpuTargetRaw usage policy) > policy.Max then policy.Max
      else if cpuTargetRaw usage policy < policy.Min then policy.Min
          else cpuTargetRaw usage policy := rfl

lemma addCondition_currentRecommendation (now : ℕ) (st : ResourceOptimizerStatus)
    (condType : String) (statusType : ConditionStatus) (reason message : String) :
    (addCondition now st condType statusType reason message).CurrentRecommendation =
      st.CurrentRecommendation := rfl

lemma generateRecommendation_of_ne_nil (usage : List UsageData) (policy : Policy)
    (hlen : usage.length ≠ 0) :
    GenerateRecommendation usage policy =
      .ok ⟨(calculateCPURecommendation usage policy.Cpu).Request,
           (calculateCPURecommendation usage policy.Cpu).Limit,
           (calculateMemoryRecommendation usage policy.Memory).Request,
           (calculateMemoryRecommendation usage policy.Memory).Limit,
           calculateConfidence usage⟩ := by
  unfold GenerateRecommendation
  rw [if_neg hlen]

lemma analyzeAndOptimize_currentRecommendation (now : ℕ) (st : ResourceOptimizerStatus)
    (policy : Policy) (usage : List UsageData) (hlen : usage.length ≠ 0) :
    (analyzeAndOptimize now st policy (.ok usage)).1.CurrentRecommendation =
      some ⟨(calculateCPURecommendation usage policy.Cpu).Request,
            (calculateCPURecommendation usage policy.Cpu).Limit,
            (calculateMemoryRecommendation usage policy.Memory).Request,
            (calculateMemoryRecommendation usage policy.Memory).Limit,
            ratTrunc (calculateConfidence usage * 100)⟩ := by
  unfold analyzeAndOptimize
  dsimp only
  rw [if_neg hlen, generateRecommendation_of_ne_nil usage policy hlen]
  rfl

lemma calculateConfidence_cases (usage : List UsageData) :
    calculateConfidence usage = 3 / 10 ∨ calculateConfidence usage = 6 / 10 ∨
    calculateConfidence usage = 9 / 10 ∨ calculateConfidence usage = 7 / 10 ∨
    calculateConfidence usage = 1 / 2 := by
  unfold calculateConfidence
  split_ifs <;> tauto

/-! ### Claims -/

/-- Claim C1.  The claim states that `addCondition` changes a stored condition's
`lastTransitionTime` if and only if the condition's status value changed, so
that re-applying an identical condition leaves the timestamp untouched.  The
source contradicts this: after the guarded write, it unconditionally overwrites
`LastTransitionTime` with a fresh timestamp on every update of an existing
condition.  Here a `Ready=True` condition stored with timestamp 3 is re-applied
unchanged at time 5, and the stored timestamp moves from 3 to 5. -/
theorem C1_lastTransitionTime_rewritten_without_value_change :
    (addCondition 5 ⟨[⟨"Ready", .conditionTrue, "r", "m", 3⟩], none⟩
        "Ready" .conditionTrue "r" "m").Conditions =
      [⟨"Ready", ConditionStatus.conditionTrue, "r", "m", 5⟩] ∧ (5 : ℕ) ≠ 3 := by
  exact ⟨rfl, by decide⟩

/-- Claim C2.  The claim states that each `UsageData` sample aggregates the
per-container usage of its own pod snapshot alone.  The source declares the
`totalCPU`/`totalMemory` accumulators outside the pod loop, so the i-th sample
carries the running total over pods 0..i.  With two pods whose own per-pod CPU
sums are [100, 100] (and memory sums [50, 50]), the collected samples carry
CPU values [100, 200] and memory values [50, 100]. -/
theorem C2_samples_carry_running_totals :
    (collectLoop [⟨[⟨100, 50⟩], 1⟩, ⟨[⟨100, 50⟩], 2⟩] 0 0).map UsageData.CPUUsage
        = [100, 200] ∧
    (collectLoop [⟨[⟨100, 50⟩], 1⟩, ⟨[⟨100, 50⟩], 2⟩] 0 0).map UsageData.MemoryUsage
        = [50, 100] ∧
    ([⟨[⟨100, 50⟩], 1⟩, ⟨[⟨100, 50⟩], 2⟩] : List PodMetric).map
        (fun p => (p.containers.map ContainerUsage.cpu).sum) = [100, 100] := by
  exact ⟨rfl, rfl, rfl⟩

/-- Claim C3.  First conjunct: `GenerateRecommendation` fails if and only if
the usage series is empty — this part of the claim holds.  Remaining
conjuncts: on an empty collected series the controller sets
`OptimizationReady=False/NoMetricsData` and returns no error, but — contrary
to the claim that the pass stops there with no further status mutation — the
pass continues and appends a further `Ready=True/AllSubresourcesReady`
condition before the final persist, as the condition list of the completed
pass shows. -/
theorem C3_empty_series_pass_behavior :
    (∀ (usage : List UsageData) (policy : Policy),
        (∃ e, GenerateRecommendation usage policy = .error e) ↔ usage = []) ∧
    (analyzeAndOptimize 0 ⟨[], none⟩ scenarioPolicy (.ok [])).2 = none ∧
    (analyzeAndOptimize 0 ⟨[], none⟩ scenarioPolicy (.ok [])).1.Conditions.map
        (fun c => (c.type, c.reason)) = [("OptimizationReady", "NoMetricsData")] ∧
    (Reconcile 0 ⟨[], none⟩ scenarioPolicy .found (.ok [])).1.Conditions.map
        (fun c => (c.type, c.reason)) =
      [("DeploymentReady", "TargetFound"), ("OptimizationReady", "NoMetricsData"),
       ("Ready", "AllSubresourcesReady")] := by
  refine ⟨fun usage policy => ?_, rfl, rfl, rfl⟩
  constructor
  · rintro ⟨e, he⟩
    by_contra hne
    have hlen : usage.length ≠ 0 := length_ne_zero_of_ne_nil hne
    unfold GenerateRecommendation at he
    rw [if_neg hlen] at he
    exact Except.noConfusion he
  · rintro rfl
    exact ⟨"no usage data available", rfl⟩

/-- Claim C4.  For every non-empty series and policy with `cpuMin ≤ cpuMax`,
the CPU request is the integer average of the CPU milli-values divided by the
target-utilization fraction, truncated and clamped into `[cpuMin, cpuMax]`,
and the CPU limit is `max(request × 1.5, peak × 1.1)` truncated to an integer;
in particular Scenario A, series [100m, 200m, 300m] with targetUtilization=50,
min=100m, max=800m, yields request 400m and limit 600m. -/
theorem C4_cpu_recommendation_formula :
    (∀ (usage : List UsageData) (policy : CPUPolicy),
      usage ≠ [] → policy.Min ≤ policy.Max →
      (calculateCPURecommendation usage policy).Request =
        max policy.Min (min policy.Max
          (ratTrunc ((((usage.map UsageData.CPUUsage).sum.tdiv usage.length : ℤ) : ℚ) /
            ((policy.TargetUtilization : ℚ) / 100)))) ∧
      (calculateCPURecommendation usage policy).Limit =
        ratTrunc (max (((calculateCPURecommendation usage policy).Request : ℚ) * (3 / 2))
          ((listMaxNonneg (usage.map UsageData.CPUUsage) : ℚ) * (11 / 10)))) ∧
    calculateCPURecommendation [⟨100, 0, 0⟩, ⟨200, 0, 0⟩, ⟨300, 0, 0⟩] ⟨100, 800, 50⟩
      = ⟨400, 600⟩ := by
  constructor
  · intro usage policy _hne hmm
    constructor
    · have : ratTrunc ((((usage.map UsageData.CPUUsage).sum.tdiv usage.length : ℤ) : ℚ) /
          ((policy.TargetUtilization : ℚ) / 100)) = cpuTargetRaw usage policy := rfl
      rw [this]
      show (if (if cpuTargetRaw usage policy < policy.Min then policy.Min
              else cpuTargetRaw usage policy) > policy.Max then policy.Max
            else if cpuTargetRaw usage policy < policy.Min then policy.Min
              else cpuTargetRaw usage policy) =
          max policy.Min (min policy.Max (cpuTargetRaw usage policy))
      split_ifs <;> omega
    · show ratTrunc _ = _
      rw [← cpuPeak_eq_listMax]
      rfl
  · have havg : cpuAvg [⟨100, 0, 0⟩, ⟨200, 0, 0⟩, ⟨300, 0, 0⟩] = 200 := by decide
    have hpeak : cpuPeak [⟨100, 0, 0⟩, ⟨200, 0, 0⟩, ⟨300, 0, 0⟩] = 300 := by decide
    have hraw : cpuTargetRaw [⟨100, 0, 0⟩, ⟨200, 0, 0⟩, ⟨300, 0, 0⟩] ⟨100, 800, 50⟩ = 400 := by
      unfold cpuTargetRaw
      rw [havg]
      unfold ratTrunc
      rw [if_pos (by norm_num)]
      norm_num
    have hclamp : cpuTargetClamped [⟨100, 0, 0⟩, ⟨200, 0, 0⟩, ⟨300, 0, 0⟩] ⟨100, 800, 50⟩
        = 400 := by
      unfold cpuTargetClamped
      rw [hraw]
      norm_num
    unfold calculateCPURecommendation
    rw [hclamp, hpeak]
    unfold ratTrunc
    rw [show max (((400 : ℤ) : ℚ) * (3 / 2)) (((300 : ℤ) : ℚ) * (11 / 10)) = 600 by
      rw [max_eq_left (by norm_num)]; norm_num]
    norm_num

/-- Witness for C4: the general formula applied to Scenario A's series and
policy. -/
theorem C4_cpu_recommendation_formula_witness :
    (([⟨100, 0, 0⟩, ⟨200, 0, 0⟩, ⟨300, 0, 0⟩] : List UsageData) ≠ [] ∧
      (100 : ℤ) ≤ 800) ∧
    ((calculateCPURecommendation [⟨100, 0, 0⟩, ⟨200, 0, 0⟩, ⟨300, 0, 0⟩]
        ⟨100, 800, 50⟩).Request =
      max 100 (min 800
        (ratTrunc (((([⟨100, 0, 0⟩, ⟨200, 0, 0⟩, ⟨300, 0, 0⟩] : List UsageData).map
            UsageData.CPUUsage).sum.tdiv 3 : ℚ) / ((50 : ℚ) / 100)))) ∧
     (calculateCPURecommendation [⟨100, 0, 0⟩, ⟨200, 0, 0⟩, ⟨300, 0, 0⟩]
        ⟨100, 800, 50⟩).Limit =
      ratTrunc (max (((calculateCPURecommendation [⟨100, 0, 0⟩, ⟨200, 0, 0⟩, ⟨300, 0, 0⟩]
          ⟨100, 800, 50⟩).Request : ℚ) * (3 / 2))
        ((listMaxNonneg (([⟨100, 0, 0⟩, ⟨200, 0, 0⟩, ⟨300, 0, 0⟩] : List UsageData).map
            UsageData.CPUUsage) : ℚ) * (11 / 10)))) :=
  ⟨⟨by decide, by decide⟩,
   C4_cpu_recommendation_formula.1 [⟨100, 0, 0⟩, ⟨200, 0, 0⟩, ⟨300, 0, 0⟩]
     ⟨100, 800, 50⟩ (by decide) (by decide)⟩

/-- Claim C5.  For every non-empty usage series and every policy with a
non-negative memory buffer percentage (the CRD validates it into 0..100), the
generated recommendation satisfies `cpuLimit ≥ cpuRequest` and
`memoryLimit ≥ memoryRequest`, including under the integer truncation of the
3/2, 11/10 and 6/5 multipliers. -/
theorem C5_limits_dominate_requests (usage : List UsageData) (policy : Policy)
    (hne : usage ≠ []) (hbuf : 0 ≤ policy.Memory.BufferPercent) :
    ∃ rec, GenerateRecommendation usage policy = .ok rec ∧
      rec.CPURequest ≤ rec.CPULimit ∧ rec.MemoryRequest ≤ rec.MemoryLimit := by
  have hlen : usage.length ≠ 0 := length_ne_zero_of_ne_nil hne
  refine ⟨_, generateRecommendation_of_ne_nil usage policy hlen, ?_, ?_⟩
  · show cpuTargetClamped usage policy.Cpu ≤
      ratTrunc (max ((cpuTargetClamped usage policy.Cpu : ℚ) * (3 / 2))
        ((cpuPeak usage : ℚ) * (11 / 10)))
    have hpeakQ : (0 : ℚ) ≤ (cpuPeak usage : ℚ) * (11 / 10) := by
      have h := cpuPeak_nonneg usage
      have : (0 : ℚ) ≤ (cpuPeak usage : ℚ) := by exact_mod_cast h
      linarith
    rcases le_or_lt 0 (cpuTargetClamped usage policy.Cpu) with h0 | h0
    · apply le_ratTrunc h0
      have hrq : (0 : ℚ) ≤ (cpuTargetClamped usage policy.Cpu : ℚ) := by exact_mod_cast h0
      calc (cpuTargetClamped usage policy.Cpu : ℚ)
          ≤ (cpuTargetClamped usage policy.Cpu : ℚ) * (3 / 2) := by linarith
        _ ≤ max ((cpuTargetClamped usage policy.Cpu : ℚ) * (3 / 2))
              ((cpuPeak usage : ℚ) * (11 / 10)) := le_max_left _ _
    · have hz : (0 : ℤ) ≤ ratTrunc (max ((cpuTargetClamped usage policy.Cpu : ℚ) * (3 / 2))
          ((cpuPeak usage : ℚ) * (11 / 10))) := by
        apply le_ratTrunc le_rfl
        push_cast
        exact le_trans hpeakQ (le_max_right _ _)
      omega
  · show memTarget usage policy.Memory ≤
      ratTrunc ((memTarget usage policy.Memory : ℚ) * (6 / 5))
    have hpeak := memPeak_nonneg usage
    have hTge : memPeak usage ≤ memTarget usage policy.Memory := by
      apply le_ratTrunc hpeak
      have hb : (0 : ℚ) ≤ (policy.Memory.BufferPercent : ℚ) := by exact_mod_cast hbuf
      have hpq : (0 : ℚ) ≤ (memPeak usage : ℚ) := by exact_mod_cast hpeak
      have hprod : (0 : ℚ) ≤ (memPeak usage : ℚ) *
          ((policy.Memory.BufferPercent : ℚ) / 100) :=
        mul_nonneg hpq (div_nonneg hb (by norm_num))
      nlinarith
    have hT0 : (0 : ℤ) ≤ memTarget usage policy.Memory := le_trans hpeak hTge
    apply le_ratTrunc hT0
    have : (0 : ℚ) ≤ (memTarget usage policy.Memory : ℚ) := by exact_mod_cast hT0
    linarith

/-- Witness for C5: a one-sample series under the Scenario A policy. -/
theorem C5_limits_dominate_requests_witness :
    (([⟨100, 500, 0⟩] : List UsageData) ≠ [] ∧
      (0 : ℤ) ≤ scenarioPolicy.Memory.BufferPercent) ∧
    (∃ rec, GenerateRecommendation [⟨100, 500, 0⟩] scenarioPolicy = .ok rec ∧
      rec.CPURequest ≤ rec.CPULimit ∧ rec.MemoryRequest ≤ rec.MemoryLimit) :=
  ⟨⟨by decide, by decide⟩,
   C5_limits_dominate_requests [⟨100, 500, 0⟩] scenarioPolicy (by decide) (by decide)⟩

/-- Claim C6.  For every non-empty usage series and every policy with
`cpuMin ≤ cpuMax`, the computed CPU request lies within `[cpuMin, cpuMax]`
inclusive, however extreme the series average is. -/
theorem C6_cpu_request_within_policy_bounds (usage : List UsageData)
    (policy : CPUPolicy) (_hne : usage ≠ []) (hmm : policy.Min ≤ policy.Max) :
    policy.Min ≤ (calculateCPURecommendation usage policy).Request ∧
    (calculateCPURecommendation usage policy).Request ≤ policy.Max := by
  have h : (calculateCPURecommendation usage policy).Request =
      cpuTargetClamped usage policy := rfl
  rw [h, cpuTargetClamped_eq]
  constructor <;> split_ifs <;> omega

/-- Witness for C6: a series whose average far exceeds the policy maximum;
the request is still clamped into [100, 800]. -/
theorem C6_cpu_request_within_policy_bounds_witness :
    (([⟨100000, 0, 0⟩] : List UsageData) ≠ [] ∧ (100 : ℤ) ≤ 800) ∧
    ((100 : ℤ) ≤ (calculateCPURecommendation [⟨100000, 0, 0⟩] ⟨100, 800, 50⟩).Request ∧
      (calculateCPURecommendation [⟨100000, 0, 0⟩] ⟨100, 800, 50⟩).Request ≤ 800) :=
  ⟨⟨by decide, by decide⟩,
   C6_cpu_request_within_policy_bounds [⟨100000, 0, 0⟩] ⟨100, 800, 50⟩
     (by decide) (by decide)⟩

/-- Claim C7.  For every non-empty usage series the memory recommendation is
request = peak × (1 + bufferPercent/100) and limit = request × 1.2, truncated
to integers, with no min/max clamping; in particular peak 500Mi (524288000
bytes) with bufferPercent 20 yields request 600Mi (629145600 bytes) and limit
720Mi (754974720 bytes). -/
theorem C7_memory_recommendation_formula :
    (∀ (usage : List UsageData) (policy : MemoryPolicy), usage ≠ [] →
      (calculateMemoryRecommendation usage policy).Request =
        ratTrunc ((listMaxNonneg (usage.map UsageData.MemoryUsage) : ℚ) *
          (1 + (policy.BufferPercent : ℚ) / 100)) ∧
      (calculateMemoryRecommendation usage policy).Limit =
        ratTrunc (((calculateMemoryRecommendation usage policy).Request : ℚ) * (6 / 5))) ∧
    calculateMemoryRecommendation [⟨0, 524288000, 0⟩] ⟨20⟩ = ⟨629145600, 754974720⟩ := by
  constructor
  · intro usage policy _hne
    refine ⟨?_, rfl⟩
    show memTarget usage policy = _
    unfold memTarget
    rw [memPeak_eq_listMax]
  · unfold calculateMemoryRecommendation memTarget memPeak
    norm_num [ratTrunc]

/-- Witness for C7: the formula applied to Scenario E's series and buffer. -/
theorem C7_memory_recommendation_formula_witness :
    (([⟨0, 524288000, 0⟩] : List UsageData) ≠ []) ∧
    ((calculateMemoryRecommendation [⟨0, 524288000, 0⟩] ⟨20⟩).Request =
        ratTrunc ((listMaxNonneg (([⟨0, 524288000, 0⟩] : List UsageData).map
            UsageData.MemoryUsage) : ℚ) * (1 + ((20 : ℤ) : ℚ) / 100)) ∧
      (calculateMemoryRecommendation [⟨0, 524288000, 0⟩] ⟨20⟩).Limit =
        ratTrunc (((calculateMemoryRecommendation [⟨0, 524288000, 0⟩] ⟨20⟩).Request : ℚ)
          * (6 / 5))) :=
  ⟨by decide, C7_memory_recommendation_formula.1 [⟨0, 524288000, 0⟩] ⟨20⟩ (by decide)⟩

/-- Claim C8.  The confidence score is a pure function of the sample count and
the population variance of the CPU milli-values, with the tier table of the
claim; in particular 3 samples give 3/10 and the 25-sample series with
variance 50 gives 9/10. -/
theorem C8_confidence_tiering :
    (∀ usage : List UsageData,
      calculateConfidence usage =
        confidenceSpec usage.length (calculateVariance (cpuValues usage))) ∧
    calculateConfidence [⟨100, 0, 0⟩, ⟨200, 0, 0⟩, ⟨300, 0, 0⟩] = 3 / 10 ∧
    calculateVariance (cpuValues sample25) = 50 ∧
    calculateConfidence sample25 = 9 / 10 := by
  have hv : calculateVariance (cpuValues sample25) = 50 := by
    unfold calculateVariance cpuValues sample25
    norm_num [List.replicate]
  refine ⟨fun usage => rfl, rfl, hv, ?_⟩
  unfold calculateConfidence
  rw [show sample25.length = 25 from by decide, hv]
  norm_num

/-- Claim C9 as stated is false: the collector does not propagate the usage
store's error verbatim, it wraps it.  At the concrete store error
"connection refused", the returned error is not the store's error. -/
theorem C9_collector_error_not_verbatim :
    CollectWorkloadMetrics (.error "connection refused") ≠
      .error "connection refused" := by
  intro h
  exact absurd (Except.error.inj h) (by decide)

/-- Claim C9 (amended).  On a usage-store query failure the collector returns
exactly one error — the store's error message prefixed with
"failed to get pod metrics: " — with no retry and no metrics value
produced. -/
theorem C9_collector_error_wrapped (e : String) :
    CollectWorkloadMetrics (.error e) =
      .error ("failed to get pod metrics: " ++ e) := rfl

/-- Claim C10.  For every successful analysis pass the analyzer confidence is
one of {0.3, 0.5, 0.6, 0.7, 0.9} ⊆ [0, 1], and the persisted status
confidence equals the truncation of 100 × that value, hence lies in
{30, 50, 60, 70, 90} ⊆ [0, 100].  (For these five constants, exact rational
evaluation of `int32(conf * 100)` agrees with IEEE-754 double rounding.) -/
theorem C10_persisted_confidence_range (now : ℕ) (st : ResourceOptimizerStatus)
    (policy : Policy) (usage : List UsageData) (hne : usage ≠ []) :
    calculateConfidence usage ∈ ({3/10, 1/2, 6/10, 7/10, 9/10} : Set ℚ) ∧
    0 ≤ calculateConfidence usage ∧ calculateConfidence usage ≤ 1 ∧
    ((analyzeAndOptimize now st policy (.ok usage)).1.CurrentRecommendation).map
        ResourceRecommendation.Confidence =
      some (ratTrunc (calculateConfidence usage * 100)) ∧
    ratTrunc (calculateConfidence usage * 100) ∈ ({30, 50, 60, 70, 90} : Set ℤ) ∧
    0 ≤ ratTrunc (calculateConfidence usage * 100) ∧
    ratTrunc (calculateConfidence usage * 100) ≤ 100 := by
  have hlen : usage.length ≠ 0 := length_ne_zero_of_ne_nil hne
  have hcur : ((analyzeAndOptimize now st policy (.ok usage)).1.CurrentRecommendation).map
      ResourceRecommendation.Confidence =
      some (ratTrunc (calculateConfidence usage * 100)) := by
    rw [analyzeAndOptimize_currentRecommendation now st policy usage hlen]
    rfl
  have h30 : ratTrunc ((3 / 10 : ℚ) * 100) = 30 := by
    unfold ratTrunc; rw [if_pos (by norm_num)]; norm_num
  have h50 : ratTrunc ((1 / 2 : ℚ) * 100) = 50 := by
    unfold ratTrunc; rw [if_pos (by norm_num)]; norm_num
  have h60 : ratTrunc ((6 / 10 : ℚ) * 100) = 60 := by
    unfold ratTrunc; rw [if_pos (by norm_num)]; norm_num
  have h70 : ratTrunc ((7 / 10 : ℚ) * 100) = 70 := by
    unfold ratTrunc; rw [if_pos (by norm_num)]; norm_num
  have h90 : ratTrunc ((9 / 10 : ℚ) * 100) = 90 := by
    unfold ratTrunc; rw [if_pos (by norm_num)]; norm_num
  rcases calculateConfidence_cases usage with h | h | h | h | h <;>
    rw [h] at hcur ⊢ <;>
    simp only [h30, h50, h60, h70, h90] at hcur ⊢ <;>
    exact ⟨by norm_num [Set.mem_insert_iff, Set.mem_singleton_iff], by norm_num, by norm_num,
      hcur, by norm_num [Set.mem_insert_iff, Set.mem_singleton_iff], by norm_num, by norm_num⟩

/-- Witness for C10: a single-sample series (confidence 0.3, persisted 30). -/
theorem C10_persisted_confidence_range_witness :
    (([⟨100, 500, 0⟩] : List UsageData) ≠ []) ∧
    (calculateConfidence [⟨100, 500, 0⟩] ∈ ({3/10, 1/2, 6/10, 7/10, 9/10} : Set ℚ) ∧
      0 ≤ calculateConfidence [⟨100, 500, 0⟩] ∧ calculateConfidence [⟨100, 500, 0⟩] ≤ 1 ∧
      ((analyzeAndOptimize 0 ⟨[], none⟩ scenarioPolicy
          (.ok [⟨100, 500, 0⟩])).1.CurrentRecommendation).map
          ResourceRecommendation.Confidence =
        some (ratTrunc (calculateConfidence [⟨100, 500, 0⟩] * 100)) ∧
      ratTrunc (calculateConfidence [⟨100, 500, 0⟩] * 100) ∈
        ({30, 50, 60, 70, 90} : Set ℤ) ∧
      0 ≤ ratTrunc (calculateConfidence [⟨100, 500, 0⟩] * 100) ∧
      ratTrunc (calculateConfidence [⟨100, 500, 0⟩] * 100) ≤ 100) :=
  ⟨by decide,
   C10_persisted_confidence_range 0 ⟨[], none⟩ scenarioPolicy [⟨100, 500, 0⟩] (by decide)⟩

end CostOptimizer
